import Mathlib

/-!
Verification of the transaction-status instruction decoders: parse_system
(src/transaction-status/src/parse_system.rs) and parse_vote
(src/transaction-status/src/parse_vote.rs).  Each decoder deserializes the
payload bytes of a CompiledInstruction against the tagged-union schema of its
program, bound-checks the account indices, arity-checks the matched variant and
projects the result into a canonical JSON-like record, or fails with a typed
error.  Rust slice indexing panics out of range; that possibility is kept
observable through a dedicated result constructor so that freedom from panics
is a provable statement.
-/

namespace SolanaTxStatus

/-- Modelled from the spec: Pubkey, the fixed-length binary account identifier
supplied by the external SDK, rendered as its canonical fixed-alphabet
(base-58) text encoding. -/
structure Pubkey where
  bytes : List Nat
deriving DecidableEq

/-- Modelled from the spec: a fixed-length binary hash identifier, rendered
with the same canonical fixed-alphabet text encoding as account identifiers. -/
structure SolHash where
  bytes : List Nat
deriving DecidableEq

/-- Modelled from the spec: the fixed 58-character alphabet of the canonical
text encoding of identifiers. -/
def base58Chars : List Char :=
  "123456789ABCDEFGHJKLMNPQRSTUVWXYZabcdefghijkmnopqrstuvwxyz".toList

/-- Big-endian numeric value of a byte sequence. -/
def beVal (bs : List Nat) : Nat :=
  bs.foldl (fun acc b => acc * 256 + b) 0

/-- Digits of a number in base 58, least significant first; the first argument
is fuel bounding the recursion. -/
def base58DigitsAux : Nat → Nat → List Char
  | 0, _ => []
  | fuel + 1, n =>
    if n = 0 then [] else base58Chars.getD (n % 58) '1' :: base58DigitsAux fuel (n / 58)

/-- Modelled from the spec: canonical fixed-alphabet rendering of a byte
identifier, one leading alphabet-first character per leading zero byte,
followed by the base-58 digits of the remaining value. -/
def base58Encode (bs : List Nat) : String :=
  String.mk
    ((bs.takeWhile (fun b => b == 0)).map (fun _ => '1') ++
      (base58DigitsAux (beVal bs) (beVal bs)).reverse)

def Pubkey.toString (p : Pubkey) : String :=
  base58Encode p.bytes

def SolHash.toString (h : SolHash) : String :=
  base58Encode h.bytes

/-- Leaf values of the JSON documents the decoders emit: strings, integers,
null, and arrays of integers, which is the full leaf vocabulary the source
constructs. -/
inductive JLeaf where
  | s (v : String)
  | i (v : Int)
  | null
  | intArr (vs : List Int)
deriving DecidableEq

/-- JSON values the decoders emit: a leaf, or one nested mapping of leaves
(the vote sub-record is the only nested structure the source builds). -/
inductive JValue where
  | leaf (v : JLeaf)
  | obj (fields : List (String × JLeaf))
deriving DecidableEq

def jstr (v : String) : JValue :=
  JValue.leaf (JLeaf.s v)

def jnat (v : Nat) : JValue :=
  JValue.leaf (JLeaf.i (Int.ofNat v))

/-- The two per-program decoders in scope, used to tag errors with the
offending program. -/
inductive ParsableProgram where
  | System
  | Vote
deriving DecidableEq

/-- Modelled from the spec: the two error kinds of the decode layer, not
parsable and key mismatch, each carrying the program being decoded. -/
inductive ParseInstructionError where
  | InstructionNotParsable (program : ParsableProgram)
  | InstructionKeyMismatch (program : ParsableProgram)
deriving DecidableEq

/-- The canonical output record: a short stable type tag and a field-name to
value mapping. -/
structure ParsedInstructionEnum where
  instruction_type : String
  info : List (String × JValue)
deriving DecidableEq

/-- Result of one decode call.  The oob constructor models a Rust panic caused
by an out-of-range slice index, so that freedom from panics is provable. -/
inductive ParseResult where
  | ok (record : ParsedInstructionEnum)
  | err (e : ParseInstructionError)
  | oob
deriving DecidableEq

def ParseResult.isOk : ParseResult → Bool
  | .ok _ => true
  | _ => false

/-- CompiledInstruction from the external SDK: a program selector index, the
ordered list of account-table indices (u8 in the source, only ever widened to
usize before use) and the raw payload bytes. -/
structure CompiledInstruction where
  program_id_index : Nat
  accounts : List Nat
  data : List Nat
deriving DecidableEq

/-- Reads exactly n bytes from the head of the list, failing if fewer remain. -/
def readBytesN : Nat → List Nat → Option (List Nat × List Nat)
  | 0, bs => some ([], bs)
  | _ + 1, [] => none
  | n + 1, b :: bs => (readBytesN n bs).map (fun p => (b :: p.1, p.2))

/-- Little-endian numeric value of a byte sequence. -/
def leVal (bs : List Nat) : Nat :=
  bs.foldr (fun b acc => b + 256 * acc) 0

def readU8 : List Nat → Option (Nat × List Nat)
  | [] => none
  | b :: bs => some (b, bs)

def readU32 (bs : List Nat) : Option (Nat × List Nat) :=
  (readBytesN 4 bs).map (fun p => (leVal p.1, p.2))

def readU64 (bs : List Nat) : Option (Nat × List Nat) :=
  (readBytesN 8 bs).map (fun p => (leVal p.1, p.2))

def readI64 (bs : List Nat) : Option (Int × List Nat) :=
  (readU64 bs).map
    (fun p => (if p.1 < 2 ^ 63 then (p.1 : Int) else (p.1 : Int) - 2 ^ 64, p.2))

def readPubkey (bs : List Nat) : Option (Pubkey × List Nat) :=
  (readBytesN 32 bs).map (fun p => (⟨p.1⟩, p.2))

def readSolHash (bs : List Nat) : Option (SolHash × List Nat) :=
  (readBytesN 32 bs).map (fun p => (⟨p.1⟩, p.2))

/-- Length-prefixed text field: a 64-bit little-endian byte count followed by
the bytes of the text. -/
def readText (bs : List Nat) : Option (String × List Nat) :=
  (readU64 bs).bind
    (fun p => (readBytesN p.1 p.2).map (fun q => (String.mk (q.1.map Char.ofNat), q.2)))

/-- Reads a counted sequence of 64-bit little-endian integers. -/
def readU64s : Nat → List Nat → Option (List Nat × List Nat)
  | 0, bs => some ([], bs)
  | n + 1, bs => (readU64 bs).bind (fun p => (readU64s n p.2).map (fun q => (p.1 :: q.1, q.2)))

/-- The SystemInstruction tagged union; the variants and their fields are the
ones matched exhaustively by parse_system in parse_system.rs. -/
inductive SystemInstruction where
  | CreateAccount (lamports : Nat) (space : Nat) (owner : Pubkey)
  | Assign (owner : Pubkey)
  | Transfer (lamports : Nat)
  | CreateAccountWithSeed (base : Pubkey) (seed : String) (lamports : Nat) (space : Nat) (owner : Pubkey)
  | AdvanceNonceAccount
  | WithdrawNonceAccount (lamports : Nat)
  | InitializeNonceAccount (authority : Pubkey)
  | AuthorizeNonceAccount (authority : Pubkey)
  | UpgradeNonceAccount
  | Allocate (space : Nat)
  | AllocateWithSeed (base : Pubkey) (seed : String) (space : Nat) (owner : Pubkey)
  | AssignWithSeed (base : Pubkey) (seed : String) (owner : Pubkey)
  | TransferWithSeed (lamports : Nat) (from_seed : String) (from_owner : Pubkey)
deriving DecidableEq

/-- Modelled from the spec: binary deserialization of the system program
schema, a standard fixed-width little-endian plus length-prefixed encoding of
the tagged union, with a 32-bit variant tag in the order of the section 6
table, failing cleanly on truncated or unknown-tag input, tolerating trailing
bytes as the source library does. -/
def deserializeSystem (data : List Nat) : Option SystemInstruction :=
  (readU32 data).bind fun (tag, r0) =>
  match tag with
  | 0 =>
    (readU64 r0).bind fun (lamports, r1) =>
    (readU64 r1).bind fun (space, r2) =>
    (readPubkey r2).map fun (owner, _) =>
    SystemInstruction.CreateAccount lamports space owner
  | 1 => (readPubkey r0).map fun (owner, _) => SystemInstruction.Assign owner
  | 2 => (readU64 r0).map fun (lamports, _) => SystemInstruction.Transfer lamports
  | 3 =>
    (readPubkey r0).bind fun (base, r1) =>
    (readText r1).bind fun (seed, r2) =>
    (readU64 r2).bind fun (lamports, r3) =>
    (readU64 r3).bind fun (space, r4) =>
    (readPubkey r4).map fun (owner, _) =>
    SystemInstruction.CreateAccountWithSeed base seed lamports space owner
  | 4 => some SystemInstruction.AdvanceNonceAccount
  | 5 => (readU64 r0).map fun (lamports, _) => SystemInstruction.WithdrawNonceAccount lamports
  | 6 => (readPubkey r0).map fun (authority, _) => SystemInstruction.InitializeNonceAccount authority
  | 7 => (readPubkey r0).map fun (authority, _) => SystemInstruction.AuthorizeNonceAccount authority
  | 8 => some SystemInstruction.UpgradeNonceAccount
  | 9 => (readU64 r0).map fun (space, _) => SystemInstruction.Allocate space
  | 10 =>
    (readPubkey r0).bind fun (base, r1) =>
    (readText r1).bind fun (seed, r2) =>
    (readU64 r2).bind fun (space, r3) =>
    (readPubkey r3).map fun (owner, _) =>
    SystemInstruction.AllocateWithSeed base seed space owner
  | 11 =>
    (readPubkey r0).bind fun (base, r1) =>
    (readText r1).bind fun (seed, r2) =>
    (readPubkey r2).map fun (owner, _) =>
    SystemInstruction.AssignWithSeed base seed owner
  | 12 =>
    (readU64 r0).bind fun (lamports, r1) =>
    (readText r1).bind fun (from_seed, r2) =>
    (readPubkey r2).map fun (from_owner, _) =>
    SystemInstruction.TransferWithSeed lamports from_seed from_owner
  | _ => none

/-- VoteInit record carried by the initialize variant of the voting program. -/
structure VoteInit where
  node_pubkey : Pubkey
  authorized_voter : Pubkey
  authorized_withdrawer : Pubkey
  commission : Nat
deriving DecidableEq

/-- Vote record: a slot list, a hash and an optional timestamp. -/
structure Vote where
  slots : List Nat
  hash : SolHash
  timestamp : Option Int
deriving DecidableEq

/-- Authority kind argument of the authorize variants. -/
inductive VoteAuthorize where
  | Voter
  | Withdrawer
deriving DecidableEq

/-- The VoteInstruction tagged union; the variants and their fields are the
ones matched exhaustively by parse_vote in parse_vote.rs. -/
inductive VoteInstruction where
  | InitializeAccount (vote_init : VoteInit)
  | Authorize (new_authorized : Pubkey) (authority_type : VoteAuthorize)
  | Vote (vote : Vote)
  | Withdraw (lamports : Nat)
  | UpdateValidatorIdentity
  | UpdateCommission (commission : Nat)
  | VoteSwitch (vote : Vote) (hash : SolHash)
  | AuthorizeChecked (authority_type : VoteAuthorize)
deriving DecidableEq

def readVoteAuthorize (bs : List Nat) : Option (VoteAuthorize × List Nat) :=
  (readU32 bs).bind fun (tag, r) =>
  match tag with
  | 0 => some (VoteAuthorize.Voter, r)
  | 1 => some (VoteAuthorize.Withdrawer, r)
  | _ => none

def readOptI64 : List Nat → Option (Option Int × List Nat)
  | 0 :: r => some (none, r)
  | 1 :: r => (readI64 r).map fun (v, r2) => (some v, r2)
  | _ => none

def readVoteRecord (bs : List Nat) : Option (Vote × List Nat) :=
  (readU64 bs).bind fun (count, r1) =>
  (readU64s count r1).bind fun (slots, r2) =>
  (readSolHash r2).bind fun (hash, r3) =>
  (readOptI64 r3).map fun (timestamp, r4) =>
  ({ slots := slots, hash := hash, timestamp := timestamp }, r4)

def readVoteInit (bs : List Nat) : Option (VoteInit × List Nat) :=
  (readPubkey bs).bind fun (node_pubkey, r1) =>
  (readPubkey r1).bind fun (authorized_voter, r2) =>
  (readPubkey r2).bind fun (authorized_withdrawer, r3) =>
  (readU8 r3).map fun (commission, r4) =>
  ({ node_pubkey := node_pubkey, authorized_voter := authorized_voter,
     authorized_withdrawer := authorized_withdrawer, commission := commission }, r4)

/-- Modelled from the spec: binary deserialization of the voting program
schema, same encoding conventions as the system schema, with the 32-bit
variant tag in the order of the section 6 table. -/
def deserializeVote (data : List Nat) : Option VoteInstruction :=
  (readU32 data).bind fun (tag, r0) =>
  match tag with
  | 0 => (readVoteInit r0).map fun (vi, _) => VoteInstruction.InitializeAccount vi
  | 1 =>
    (readPubkey r0).bind fun (new_authorized, r1) =>
    (readVoteAuthorize r1).map fun (authority_type, _) =>
    VoteInstruction.Authorize new_authorized authority_type
  | 2 => (readVoteRecord r0).map fun (v, _) => VoteInstruction.Vote v
  | 3 => (readU64 r0).map fun (lamports, _) => VoteInstruction.Withdraw lamports
  | 4 => some VoteInstruction.UpdateValidatorIdentity
  | 5 => (readU8 r0).map fun (commission, _) => VoteInstruction.UpdateCommission commission
  | 6 =>
    (readVoteRecord r0).bind fun (v, r1) =>
    (readSolHash r1).map fun (hash, _) =>
    VoteInstruction.VoteSwitch v hash
  | 7 => (readVoteAuthorize r0).map fun (authority_type, _) => VoteInstruction.AuthorizeChecked authority_type
  | _ => none

/-- Maximum of a list of account indices, as Option, mirroring the max method
of the iterator over the accounts slice: none exactly when the list is empty. -/
def listMax? : List Nat → Option Nat
  | [] => none
  | a :: rest =>
    match listMax? rest with
    | none => some a
    | some m => some (max a m)

/-- Modelled from the spec: the shared arity-check helper of the decode layer,
failing with the key-mismatch error of the given program when fewer account
indices were supplied than the matched variant requires. -/
def check_num_accounts (accounts : List Nat) (num : Nat) (program : ParsableProgram) :
    Except ParseInstructionError Unit :=
  if accounts.length < num then
    Except.error (ParseInstructionError.InstructionKeyMismatch program)
  else Except.ok ()

def check_num_system_accounts (accounts : List Nat) (num : Nat) :
    Except ParseInstructionError Unit :=
  check_num_accounts accounts num ParsableProgram.System

def check_num_vote_accounts (accounts : List Nat) (num : Nat) :
    Except ParseInstructionError Unit :=
  check_num_accounts accounts num ParsableProgram.Vote

/-- Resolves the account index stored at one position of the accounts list
through the account-keys table to its text rendering.  Both indexing steps
mirror Rust slice indexing; none stands for the panic of an out-of-range
access. -/
def lookupKey (account_keys : List Pubkey) (accounts : List Nat) (pos : Nat) :
    Option String :=
  (accounts.get? pos).bind (fun idx => (account_keys.get? idx).map Pubkey.toString)

/-- Runs the arity check, then the projection: an arity failure yields its
error, a failed account resolution yields the out-of-range marker, otherwise
the finished record. -/
def guarded (chk : Except ParseInstructionError Unit)
    (record : Option ParsedInstructionEnum) : ParseResult :=
  match chk with
  | Except.error e => ParseResult.err e
  | Except.ok _ =>
    match record with
    | none => ParseResult.oob
    | some r => ParseResult.ok r

/-- JSON rendering of the authority kind, as the external serialization of the
unit variant: the variant name as a string. -/
def VoteAuthorize.toJValue : VoteAuthorize → JValue
  | VoteAuthorize.Voter => jstr "Voter"
  | VoteAuthorize.Withdrawer => jstr "Withdrawer"

/-- Nested JSON rendering of a vote record: slots, hash and timestamp, built
exactly as the vote sub-object of parse_vote.rs. -/
def voteToJValue (v : Vote) : JValue :=
  JValue.obj
    [("slots", JLeaf.intArr (v.slots.map Int.ofNat)),
     ("hash", JLeaf.s v.hash.toString),
     ("timestamp", match v.timestamp with | some t => JLeaf.i t | none => JLeaf.null)]

/-- Per-variant body of parse_system: the match on the deserialized
SystemInstruction in parse_system.rs, lines 27 to 202, arm by arm in source
order, each arm checking its arity and projecting its fields. -/
def systemDispatch (system_instruction : SystemInstruction) (accounts : List Nat)
    (account_keys : List Pubkey) : ParseResult :=
  match system_instruction with
  | SystemInstruction.CreateAccount lamports space owner =>
    guarded (check_num_system_accounts accounts 2)
      (match lookupKey account_keys accounts 0, lookupKey account_keys accounts 1 with
       | some source, some newAccount =>
         some { instruction_type := "createAccount",
                info := [("source", jstr source), ("newAccount", jstr newAccount),
                         ("lamports", jnat lamports), ("space", jnat space),
                         ("owner", jstr owner.toString)] }
       | _, _ => none)
  | SystemInstruction.Assign owner =>
    guarded (check_num_system_accounts accounts 1)
      (match lookupKey account_keys accounts 0 with
       | some account =>
         some { instruction_type := "assign",
                info := [("account", jstr account), ("owner", jstr owner.toString)] }
       | none => none)
  | SystemInstruction.Transfer lamports =>
    guarded (check_num_system_accounts accounts 2)
      (match lookupKey account_keys accounts 0, lookupKey account_keys accounts 1 with
       | some source, some destination =>
         some { instruction_type := "transfer",
                info := [("source", jstr source), ("destination", jstr destination),
                         ("lamports", jnat lamports)] }
       | _, _ => none)
  | SystemInstruction.CreateAccountWithSeed base seed lamports space owner =>
    guarded (check_num_system_accounts accounts 2)
      (match lookupKey account_keys accounts 0, lookupKey account_keys accounts 1 with
       | some source, some newAccount =>
         some { instruction_type := "createAccountWithSeed",
                info := [("source", jstr source), ("newAccount", jstr newAccount),
                         ("base", jstr base.toString), ("seed", jstr seed),
                         ("lamports", jnat lamports), ("space", jnat space),
                         ("owner", jstr owner.toString)] }
       | _, _ => none)
  | SystemInstruction.AdvanceNonceAccount =>
    guarded (check_num_system_accounts accounts 3)
      (match lookupKey account_keys accounts 0, lookupKey account_keys accounts 1,
             lookupKey account_keys accounts 2 with
       | some nonceAccount, some recentBlockhashesSysvar, some nonceAuthority =>
         some { instruction_type := "advanceNonce",
                info := [("nonceAccount", jstr nonceAccount),
                         ("recentBlockhashesSysvar", jstr recentBlockhashesSysvar),
                         ("nonceAuthority", jstr nonceAuthority)] }
       | _, _, _ => none)
  | SystemInstruction.WithdrawNonceAccount lamports =>
    guarded (check_num_system_accounts accounts 5)
      (match lookupKey account_keys accounts 0, lookupKey account_keys accounts 1,
             lookupKey account_keys accounts 2, lookupKey account_keys accounts 3,
             lookupKey account_keys accounts 4 with
       | some nonceAccount, some destination, some recentBlockhashesSysvar,
         some rentSysvar, some nonceAuthority =>
         some { instruction_type := "withdrawFromNonce",
                info := [("nonceAccount", jstr nonceAccount),
                         ("destination", jstr destination),
                         ("recentBlockhashesSysvar", jstr recentBlockhashesSysvar),
                         ("rentSysvar", jstr rentSysvar),
                         ("nonceAuthority", jstr nonceAuthority),
                         ("lamports", jnat lamports)] }
       | _, _, _, _, _ => none)
  | SystemInstruction.InitializeNonceAccount authority =>
    guarded (check_num_system_accounts accounts 3)
      (match lookupKey account_keys accounts 0, lookupKey account_keys accounts 1,
             lookupKey account_keys accounts 2 with
       | some nonceAccount, some recentBlockhashesSysvar, some rentSysvar =>
         some { instruction_type := "initializeNonce",
                info := [("nonceAccount", jstr nonceAccount),
                         ("recentBlockhashesSysvar", jstr recentBlockhashesSysvar),
                         ("rentSysvar", jstr rentSysvar),
                         ("nonceAuthority", jstr authority.toString)] }
       | _, _, _ => none)
  | SystemInstruction.AuthorizeNonceAccount authority =>
    guarded (check_num_system_accounts accounts 2)
      (match lookupKey account_keys accounts 0, lookupKey account_keys accounts 1 with
       | some nonceAccount, some nonceAuthority =>
         some { instruction_type := "authorizeNonce",
                info := [("nonceAccount", jstr nonceAccount),
                         ("nonceAuthority", jstr nonceAuthority),
                         ("newAuthorized", jstr authority.toString)] }
       | _, _ => none)
  | SystemInstruction.UpgradeNonceAccount =>
    guarded (check_num_system_accounts accounts 1)
      (match lookupKey account_keys accounts 0 with
       | some nonceAccount =>
         some { instruction_type := "upgradeNonce",
                info := [("nonceAccount", jstr nonceAccount)] }
       | none => none)
  | SystemInstruction.Allocate space =>
    guarded (check_num_system_accounts accounts 1)
      (match lookupKey account_keys accounts 0 with
       | some account =>
         some { instruction_type := "allocate",
                info := [("account", jstr account), ("space", jnat space)] }
       | none => none)
  | SystemInstruction.AllocateWithSeed base seed space owner =>
    guarded (check_num_system_accounts accounts 2)
      (match lookupKey account_keys accounts 0 with
       | some account =>
         some { instruction_type := "allocateWithSeed",
                info := [("account", jstr account), ("base", jstr base.toString),
                         ("seed", jstr seed), ("space", jnat space),
                         ("owner", jstr owner.toString)] }
       | none => none)
  | SystemInstruction.AssignWithSeed base seed owner =>
    guarded (check_num_system_accounts accounts 2)
      (match lookupKey account_keys accounts 0 with
       | some account =>
         some { instruction_type := "assignWithSeed",
                info := [("account", jstr account), ("base", jstr base.toString),
                         ("seed", jstr seed), ("owner", jstr owner.toString)] }
       | none => none)
  | SystemInstruction.TransferWithSeed lamports from_seed from_owner =>
    guarded (check_num_system_accounts accounts 3)
      (match lookupKey account_keys accounts 0, lookupKey account_keys accounts 1,
             lookupKey account_keys accounts 2 with
       | some source, some sourceBase, some destination =>
         some { instruction_type := "transferWithSeed",
                info := [("source", jstr source), ("sourceBase", jstr sourceBase),
                         ("destination", jstr destination), ("lamports", jnat lamports),
                         ("sourceSeed", jstr from_seed),
                         ("sourceOwner", jstr from_owner.toString)] }
       | _, _, _ => none)

/-- parse_system from parse_system.rs, lines 12 to 203: deserialize the
payload, run the maximum-account-index bound check (note that an empty
accounts list falls into the error arm of the match), then dispatch on the
variant. -/
def parse_system (instruction : CompiledInstruction) (account_keys : List Pubkey) :
    ParseResult :=
  match deserializeSystem instruction.data with
  | none => ParseResult.err (ParseInstructionError.InstructionNotParsable ParsableProgram.System)
  | some system_instruction =>
    match listMax? instruction.accounts with
    | some index =>
      if index < account_keys.length then
        systemDispatch system_instruction instruction.accounts account_keys
      else ParseResult.err (ParseInstructionError.InstructionKeyMismatch ParsableProgram.System)
    | none => ParseResult.err (ParseInstructionError.InstructionKeyMismatch ParsableProgram.System)

/-- Per-variant body of parse_vote: the match on the deserialized
VoteInstruction in parse_vote.rs, lines 26 to 139, arm by arm in source
order. -/
def voteDispatch (vote_instruction : VoteInstruction) (accounts : List Nat)
    (account_keys : List Pubkey) : ParseResult :=
  match vote_instruction with
  | VoteInstruction.InitializeAccount vote_init =>
    guarded (check_num_vote_accounts accounts 4)
      (match lookupKey account_keys accounts 0, lookupKey account_keys accounts 1,
             lookupKey account_keys accounts 2, lookupKey account_keys accounts 3 with
       | some voteAccount, some rentSysvar, some clockSysvar, some node =>
         some { instruction_type := "initialize",
                info := [("voteAccount", jstr voteAccount), ("rentSysvar", jstr rentSysvar),
                         ("clockSysvar", jstr clockSysvar), ("node", jstr node),
                         ("authorizedVoter", jstr vote_init.authorized_voter.toString),
                         ("authorizedWithdrawer", jstr vote_init.authorized_withdrawer.toString),
                         ("commission", jnat vote_init.commission)] }
       | _, _, _, _ => none)
  | VoteInstruction.Authorize new_authorized authority_type =>
    guarded (check_num_vote_accounts accounts 3)
      (match lookupKey account_keys accounts 0, lookupKey account_keys accounts 1,
             lookupKey account_keys accounts 2 with
       | some voteAccount, some clockSysvar, some authority =>
         some { instruction_type := "authorize",
                info := [("voteAccount", jstr voteAccount), ("clockSysvar", jstr clockSysvar),
                         ("authority", jstr authority),
                         ("newAuthority", jstr new_authorized.toString),
                         ("authorityType", authority_type.toJValue)] }
       | _, _, _ => none)
  | VoteInstruction.Vote vote =>
    guarded (check_num_vote_accounts accounts 4)
      (match lookupKey account_keys accounts 0, lookupKey account_keys accounts 1,
             lookupKey account_keys accounts 2, lookupKey account_keys accounts 3 with
       | some voteAccount, some slotHashesSysvar, some clockSysvar, some voteAuthority =>
         some { instruction_type := "vote",
                info := [("voteAccount", jstr voteAccount),
                         ("slotHashesSysvar", jstr slotHashesSysvar),
                         ("clockSysvar", jstr clockSysvar),
                         ("voteAuthority", jstr voteAuthority),
                         ("vote", voteToJValue vote)] }
       | _, _, _, _ => none)
  | VoteInstruction.Withdraw lamports =>
    guarded (check_num_vote_accounts accounts 3)
      (match lookupKey account_keys accounts 0, lookupKey account_keys accounts 1,
             lookupKey account_keys accounts 2 with
       | some voteAccount, some destination, some withdrawAuthority =>
         some { instruction_type := "withdraw",
                info := [("voteAccount", jstr voteAccount), ("destination", jstr destination),
                         ("withdrawAuthority", jstr withdrawAuthority),
                         ("lamports", jnat lamports)] }
       | _, _, _ => none)
  | VoteInstruction.UpdateValidatorIdentity =>
    guarded (check_num_vote_accounts accounts 3)
      (match lookupKey account_keys accounts 0, lookupKey account_keys accounts 1,
             lookupKey account_keys accounts 2 with
       | some voteAccount, some newValidatorIdentity, some withdrawAuthority =>
         some { instruction_type := "updateValidatorIdentity",
                info := [("voteAccount", jstr voteAccount),
                         ("newValidatorIdentity", jstr newValidatorIdentity),
                         ("withdrawAuthority", jstr withdrawAuthority)] }
       | _, _, _ => none)
  | VoteInstruction.UpdateCommission commission =>
    guarded (check_num_vote_accounts accounts 2)
      (match lookupKey account_keys accounts 0, lookupKey account_keys accounts 1 with
       | some voteAccount, some withdrawAuthority =>
         some { instruction_type := "updateCommission",
                info := [("voteAccount", jstr voteAccount),
                         ("withdrawAuthority", jstr withdrawAuthority),
                         ("commission", jnat commission)] }
       | _, _ => none)
  | VoteInstruction.VoteSwitch vote hash =>
    guarded (check_num_vote_accounts accounts 4)
      (match lookupKey account_keys accounts 0, lookupKey account_keys accounts 1,
             lookupKey account_keys accounts 2, lookupKey account_keys accounts 3 with
       | some voteAccount, some slotHashesSysvar, some clockSysvar, some voteAuthority =>
         some { instruction_type := "voteSwitch",
                info := [("voteAccount", jstr voteAccount),
                         ("slotHashesSysvar", jstr slotHashesSysvar),
                         ("clockSysvar", jstr clockSysvar),
                         ("voteAuthority", jstr voteAuthority),
                         ("vote", voteToJValue vote),
                         ("hash", jstr hash.toString)] }
       | _, _, _, _ => none)
  | VoteInstruction.AuthorizeChecked authority_type =>
    guarded (check_num_vote_accounts accounts 4)
      (match lookupKey account_keys accounts 0, lookupKey account_keys accounts 1,
             lookupKey account_keys accounts 2, lookupKey account_keys accounts 3 with
       | some voteAccount, some clockSysvar, some authority, some newAuthority =>
         some { instruction_type := "authorizeChecked",
                info := [("voteAccount", jstr voteAccount), ("clockSysvar", jstr clockSysvar),
                         ("authority", jstr authority), ("newAuthority", jstr newAuthority),
                         ("authorityType", authority_type.toJValue)] }
       | _, _, _, _ => none)

/-- parse_vote from parse_vote.rs, lines 11 to 140: deserialize the payload,
run the maximum-account-index bound check (an empty accounts list falls into
the error arm of the match), then dispatch on the variant. -/
def parse_vote (instruction : CompiledInstruction) (account_keys : List Pubkey) :
    ParseResult :=
  match deserializeVote instruction.data with
  | none => ParseResult.err (ParseInstructionError.InstructionNotParsable ParsableProgram.Vote)
  | some vote_instruction =>
    match listMax? instruction.accounts with
    | some index =>
      if index < account_keys.length then
        voteDispatch vote_instruction instruction.accounts account_keys
      else ParseResult.err (ParseInstructionError.InstructionKeyMismatch ParsableProgram.Vote)
    | none => ParseResult.err (ParseInstructionError.InstructionKeyMismatch ParsableProgram.Vote)

/-- Required account count per system variant: the constant passed to
check_num_system_accounts in the matching arm of parse_system.rs. -/
def requiredSystem : SystemInstruction → Nat
  | SystemInstruction.CreateAccount .. => 2
  | SystemInstruction.Assign .. => 1
  | SystemInstruction.Transfer .. => 2
  | SystemInstruction.CreateAccountWithSeed .. => 2
  | SystemInstruction.AdvanceNonceAccount => 3
  | SystemInstruction.WithdrawNonceAccount .. => 5
  | SystemInstruction.InitializeNonceAccount .. => 3
  | SystemInstruction.AuthorizeNonceAccount .. => 2
  | SystemInstruction.UpgradeNonceAccount => 1
  | SystemInstruction.Allocate .. => 1
  | SystemInstruction.AllocateWithSeed .. => 2
  | SystemInstruction.AssignWithSeed .. => 2
  | SystemInstruction.TransferWithSeed .. => 3

/-- Required account count per vote variant: the constant passed to
check_num_vote_accounts in the matching arm of parse_vote.rs. -/
def requiredVote : VoteInstruction → Nat
  | VoteInstruction.InitializeAccount .. => 4
  | VoteInstruction.Authorize .. => 3
  | VoteInstruction.Vote .. => 4
  | VoteInstruction.Withdraw .. => 3
  | VoteInstruction.UpdateValidatorIdentity => 3
  | VoteInstruction.UpdateCommission .. => 2
  | VoteInstruction.VoteSwitch .. => 4
  | VoteInstruction.AuthorizeChecked .. => 4

/-- Modelled from the spec: the required account count per system variant as
the section 6 table lists it, counting the entries of its required-accounts
column.  Kept separate from requiredSystem on purpose, to compare the table
against the constants the code actually checks. -/
def requiredSystemSpecTable : SystemInstruction → Nat
  | SystemInstruction.CreateAccount .. => 2
  | SystemInstruction.Assign .. => 1
  | SystemInstruction.Transfer .. => 2
  | SystemInstruction.CreateAccountWithSeed .. => 2
  | SystemInstruction.AdvanceNonceAccount => 3
  | SystemInstruction.WithdrawNonceAccount .. => 5
  | SystemInstruction.InitializeNonceAccount .. => 3
  | SystemInstruction.AuthorizeNonceAccount .. => 2
  | SystemInstruction.UpgradeNonceAccount => 1
  | SystemInstruction.Allocate .. => 1
  | SystemInstruction.AllocateWithSeed .. => 1
  | SystemInstruction.AssignWithSeed .. => 1
  | SystemInstruction.TransferWithSeed .. => 3

/-- The boolean outcome of the maximum-account-index bound check of both
decoders: true exactly when the accounts list is nonempty and its maximum is
within the key table; the empty list takes the error arm of the match in the
source. -/
def maxAccountIndexOk (accounts : List Nat) (account_keys : List Pubkey) : Bool :=
  match listMax? accounts with
  | some index => decide (index < account_keys.length)
  | none => false

/-- Text rendering of the key referenced at one position, totalized with an
empty-string default; used only where the bound and arity checks make the
default unreachable. -/
def keyStrAt (account_keys : List Pubkey) (accounts : List Nat) (pos : Nat) : String :=
  (lookupKey account_keys accounts pos).getD ""

/-- The record each system variant projects once every check has passed,
written with total lookups; proved below to agree with systemDispatch under
the bound and arity checks. -/
def systemRecord (si : SystemInstruction) (accounts : List Nat)
    (account_keys : List Pubkey) : ParsedInstructionEnum :=
  match si with
  | SystemInstruction.CreateAccount lamports space owner =>
    { instruction_type := "createAccount",
      info := [("source", jstr (keyStrAt account_keys accounts 0)),
               ("newAccount", jstr (keyStrAt account_keys accounts 1)),
               ("lamports", jnat lamports), ("space", jnat space),
               ("owner", jstr owner.toString)] }
  | SystemInstruction.Assign owner =>
    { instruction_type := "assign",
      info := [("account", jstr (keyStrAt account_keys accounts 0)),
               ("owner", jstr owner.toString)] }
  | SystemInstruction.Transfer lamports =>
    { instruction_type := "transfer",
      info := [("source", jstr (keyStrAt account_keys accounts 0)),
               ("destination", jstr (keyStrAt account_keys accounts 1)),
               ("lamports", jnat lamports)] }
  | SystemInstruction.CreateAccountWithSeed base seed lamports space owner =>
    { instruction_type := "createAccountWithSeed",
      info := [("source", jstr (keyStrAt account_keys accounts 0)),
               ("newAccount", jstr (keyStrAt account_keys accounts 1)),
               ("base", jstr base.toString), ("seed", jstr seed),
               ("lamports", jnat lamports), ("space", jnat space),
               ("owner", jstr owner.toString)] }
  | SystemInstruction.AdvanceNonceAccount =>
    { instruction_type := "advanceNonce",
      info := [("nonceAccount", jstr (keyStrAt account_keys accounts 0)),
               ("recentBlockhashesSysvar", jstr (keyStrAt account_keys accounts 1)),
               ("nonceAuthority", jstr (keyStrAt account_keys accounts 2))] }
  | SystemInstruction.WithdrawNonceAccount lamports =>
    { instruction_type := "withdrawFromNonce",
      info := [("nonceAccount", jstr (keyStrAt account_keys accounts 0)),
               ("destination", jstr (keyStrAt account_keys accounts 1)),
               ("recentBlockhashesSysvar", jstr (keyStrAt account_keys accounts 2)),
               ("rentSysvar", jstr (keyStrAt account_keys accounts 3)),
               ("nonceAuthority", jstr (keyStrAt account_keys accounts 4)),
               ("lamports", jnat lamports)] }
  | SystemInstruction.InitializeNonceAccount authority =>
    { instruction_type := "initializeNonce",
      info := [("nonceAccount", jstr (keyStrAt account_keys accounts 0)),
               ("recentBlockhashesSysvar", jstr (keyStrAt account_keys accounts 1)),
               ("rentSysvar", jstr (keyStrAt account_keys accounts 2)),
               ("nonceAuthority", jstr authority.toString)] }
  | SystemInstruction.AuthorizeNonceAccount authority =>
    { instruction_type := "authorizeNonce",
      info := [("nonceAccount", jstr (keyStrAt account_keys accounts 0)),
               ("nonceAuthority", jstr (keyStrAt account_keys accounts 1)),
               ("newAuthorized", jstr authority.toString)] }
  | SystemInstruction.UpgradeNonceAccount =>
    { instruction_type := "upgradeNonce",
      info := [("nonceAccount", jstr (keyStrAt account_keys accounts 0))] }
  | SystemInstruction.Allocate space =>
    { instruction_type := "allocate",
      info := [("account", jstr (keyStrAt account_keys accounts 0)),
               ("space", jnat space)] }
  | SystemInstruction.AllocateWithSeed base seed space owner =>
    { instruction_type := "allocateWithSeed",
      info := [("account", jstr (keyStrAt account_keys accounts 0)),
               ("base", jstr base.toString), ("seed", jstr seed),
               ("space", jnat space), ("owner", jstr owner.toString)] }
  | SystemInstruction.AssignWithSeed base seed owner =>
    { instruction_type := "assignWithSeed",
      info := [("account", jstr (keyStrAt account_keys accounts 0)),
               ("base", jstr base.toString), ("seed", jstr seed),
               ("owner", jstr owner.toString)] }
  | SystemInstruction.TransferWithSeed lamports from_seed from_owner =>
    { instruction_type := "transferWithSeed",
      info := [("source", jstr (keyStrAt account_keys accounts 0)),
               ("sourceBase", jstr (keyStrAt account_keys accounts 1)),
               ("destination", jstr (keyStrAt account_keys accounts 2)),
               ("lamports", jnat lamports), ("sourceSeed", jstr from_seed),
               ("sourceOwner", jstr from_owner.toString)] }

/-- The record each vote variant projects once every check has passed, written
with total lookups; proved below to agree with voteDispatch under the bound
and arity checks. -/
def voteRecord (vi : VoteInstruction) (accounts : List Nat)
    (account_keys : List Pubkey) : ParsedInstructionEnum :=
  match vi with
  | VoteInstruction.InitializeAccount vote_init =>
    { instruction_type := "initialize",
      info := [("voteAccount", jstr (keyStrAt account_keys accounts 0)),
               ("rentSysvar", jstr (keyStrAt account_keys accounts 1)),
               ("clockSysvar", jstr (keyStrAt account_keys accounts 2)),
               ("node", jstr (keyStrAt account_keys accounts 3)),
               ("authorizedVoter", jstr vote_init.authorized_voter.toString),
               ("authorizedWithdrawer", jstr vote_init.authorized_withdrawer.toString),
               ("commission", jnat vote_init.commission)] }
  | VoteInstruction.Authorize new_authorized authority_type =>
    { instruction_type := "authorize",
      info := [("voteAccount", jstr (keyStrAt account_keys accounts 0)),
               ("clockSysvar", jstr (keyStrAt account_keys accounts 1)),
               ("authority", jstr (keyStrAt account_keys accounts 2)),
               ("newAuthority", jstr new_authorized.toString),
               ("authorityType", authority_type.toJValue)] }
  | VoteInstruction.Vote vote =>
    { instruction_type := "vote",
      info := [("voteAccount", jstr (keyStrAt account_keys accounts 0)),
               ("slotHashesSysvar", jstr (keyStrAt account_keys accounts 1)),
               ("clockSysvar", jstr (keyStrAt account_keys accounts 2)),
               ("voteAuthority", jstr (keyStrAt account_keys accounts 3)),
               ("vote", voteToJValue vote)] }
  | VoteInstruction.Withdraw lamports =>
    { instruction_type := "withdraw",
      info := [("voteAccount", jstr (keyStrAt account_keys accounts 0)),
               ("destination", jstr (keyStrAt account_keys accounts 1)),
               ("withdrawAuthority", jstr (keyStrAt account_keys accounts 2)),
               ("lamports", jnat lamports)] }
  | VoteInstruction.UpdateValidatorIdentity =>
    { instruction_type := "updateValidatorIdentity",
      info := [("voteAccount", jstr (keyStrAt account_keys accounts 0)),
               ("newValidatorIdentity", jstr (keyStrAt account_keys accounts 1)),
               ("withdrawAuthority", jstr (keyStrAt account_keys accounts 2))] }
  | VoteInstruction.UpdateCommission commission =>
    { instruction_type := "updateCommission",
      info := [("voteAccount", jstr (keyStrAt account_keys accounts 0)),
               ("withdrawAuthority", jstr (keyStrAt account_keys accounts 1)),
               ("commission", jnat commission)] }
  | VoteInstruction.VoteSwitch vote hash =>
    { instruction_type := "voteSwitch",
      info := [("voteAccount", jstr (keyStrAt account_keys accounts 0)),
               ("slotHashesSysvar", jstr (keyStrAt account_keys accounts 1)),
               ("clockSysvar", jstr (keyStrAt account_keys accounts 2)),
               ("voteAuthority", jstr (keyStrAt account_keys accounts 3)),
               ("vote", voteToJValue vote),
               ("hash", jstr hash.toString)] }
  | VoteInstruction.AuthorizeChecked authority_type =>
    { instruction_type := "authorizeChecked",
      info := [("voteAccount", jstr (keyStrAt account_keys accounts 0)),
               ("clockSysvar", jstr (keyStrAt account_keys accounts 1)),
               ("authority", jstr (keyStrAt account_keys accounts 2)),
               ("newAuthority", jstr (keyStrAt account_keys accounts 3)),
               ("authorityType", authority_type.toJValue)] }

theorem listMax?_eq_none {l : List Nat} : listMax? l = none ↔ l = [] := by
  cases l with
  | nil => simp [listMax?]
  | cons a rest =>
    cases h : listMax? rest <;> simp [listMax?, h]

theorem listMax?_le {l : List Nat} {m : Nat} (h : listMax? l = some m) :
    ∀ a ∈ l, a ≤ m := by
  induction l generalizing m with
  | nil => simp [listMax?] at h
  | cons b rest ih =>
    intro a ha
    rw [listMax?] at h
    cases hr : listMax? rest with
    | none =>
      rw [hr] at h
      simp only [Option.some.injEq] at h
      have hrest := listMax?_eq_none.mp hr
      subst hrest
      simp only [List.mem_singleton] at ha
      omega
    | some mr =>
      rw [hr] at h
      simp only [Option.some.injEq] at h
      have h1 : b ≤ m := by rw [← h]; exact le_max_left b mr
      have h2 : mr ≤ m := by rw [← h]; exact le_max_right b mr
      rcases List.mem_cons.mp ha with rfl | hmem
      · exact h1
      · exact le_trans (ih hr a hmem) h2

theorem listMax?_mem {l : List Nat} {m : Nat} (h : listMax? l = some m) : m ∈ l := by
  induction l generalizing m with
  | nil => simp [listMax?] at h
  | cons b rest ih =>
    rw [listMax?] at h
    cases hr : listMax? rest with
    | none =>
      rw [hr] at h
      simp only [Option.some.injEq] at h
      subst h
      exact List.mem_cons_self _ _
    | some mr =>
      rw [hr] at h
      simp only [Option.some.injEq] at h
      rcases max_choice b mr with hc | hc
      · rw [hc] at h; subst h; exact List.mem_cons_self _ _
      · rw [hc] at h; subst h; exact List.mem_cons_of_mem _ (ih hr)

/-- The bound check passes exactly when the instruction references at least
one account and every referenced index is within the key table. -/
theorem maxAccountIndexOk_iff (accounts : List Nat) (account_keys : List Pubkey) :
    maxAccountIndexOk accounts account_keys = true ↔
      accounts ≠ [] ∧ ∀ a ∈ accounts, a < account_keys.length := by
  unfold maxAccountIndexOk
  cases h : listMax? accounts with
  | none =>
    have he := listMax?_eq_none.mp h
    subst he
    simp
  | some m =>
    simp only [decide_eq_true_eq]
    constructor
    · intro hm
      refine ⟨?_, fun a ha => lt_of_le_of_lt (listMax?_le h a ha) hm⟩
      intro hnil
      subst hnil
      simp [listMax?] at h
    · rintro ⟨-, hb⟩
      exact hb m (listMax?_mem h)

theorem lookupKey_eq_some (account_keys : List Pubkey) (accounts : List Nat) (pos : Nat)
    (hb : ∀ a ∈ accounts, a < account_keys.length) (hpos : pos < accounts.length) :
    lookupKey account_keys accounts pos = some (keyStrAt account_keys accounts pos) := by
  unfold keyStrAt lookupKey
  cases hidx : accounts.get? pos with
  | none =>
    have := List.get?_eq_none.mp hidx
    omega
  | some idx =>
    have hmem : idx ∈ accounts := List.get?_mem hidx
    have hlt : idx < account_keys.length := hb idx hmem
    cases hkey : account_keys.get? idx with
    | none =>
      have := List.get?_eq_none.mp hkey
      omega
    | some k =>
      simp only [List.get?_eq_getElem?] at hkey
      simp [hkey]

theorem keyStrAt_append (account_keys : List Pubkey) (l e : List Nat) (pos : Nat)
    (h : pos < l.length) :
    keyStrAt account_keys (l ++ e) pos = keyStrAt account_keys l pos := by
  unfold keyStrAt lookupKey
  simp only [List.get?_eq_getElem?]
  rw [List.getElem?_append_left h]

/-- Under the bound check, each arm of the system dispatch is its arity check
followed by the total projection. -/
theorem systemDispatch_eq (si : SystemInstruction) (accounts : List Nat)
    (account_keys : List Pubkey)
    (hb : ∀ a ∈ accounts, a < account_keys.length) :
    systemDispatch si accounts account_keys =
      if accounts.length < requiredSystem si then
        ParseResult.err (ParseInstructionError.InstructionKeyMismatch ParsableProgram.System)
      else ParseResult.ok (systemRecord si accounts account_keys) := by
  cases si with
  | CreateAccount lamports space owner =>
    by_cases hlen : accounts.length < 2
    · simp [systemDispatch, requiredSystem, guarded, check_num_system_accounts,
            check_num_accounts, hlen]
    · simp [systemDispatch, requiredSystem, guarded, check_num_system_accounts,
            check_num_accounts, hlen, systemRecord,
            lookupKey_eq_some account_keys accounts 0 hb (by omega),
            lookupKey_eq_some account_keys accounts 1 hb (by omega)]
  | Assign owner =>
    by_cases hlen : accounts.length < 1
    · simp [systemDispatch, requiredSystem, guarded, check_num_system_accounts,
            check_num_accounts, hlen]
    · simp [systemDispatch, requiredSystem, guarded, check_num_system_accounts,
            check_num_accounts, hlen, systemRecord,
            lookupKey_eq_some account_keys accounts 0 hb (by omega)]
  | Transfer lamports =>
    by_cases hlen : accounts.length < 2
    · simp [systemDispatch, requiredSystem, guarded, check_num_system_accounts,
            check_num_accounts, hlen]
    · simp [systemDispatch, requiredSystem, guarded, check_num_system_accounts,
            check_num_accounts, hlen, systemRecord,
            lookupKey_eq_some account_keys accounts 0 hb (by omega),
            lookupKey_eq_some account_keys accounts 1 hb (by omega)]
  | CreateAccountWithSeed base seed lamports space owner =>
    by_cases hlen : accounts.length < 2
    · simp [systemDispatch, requiredSystem, guarded, check_num_system_accounts,
            check_num_accounts, hlen]
    · simp [systemDispatch, requiredSystem, guarded, check_num_system_accounts,
            check_num_accounts, hlen, systemRecord,
            lookupKey_eq_some account_keys accounts 0 hb (by omega),
            lookupKey_eq_some account_keys accounts 1 hb (by omega)]
  | AdvanceNonceAccount =>
    by_cases hlen : accounts.length < 3
    · simp [systemDispatch, requiredSystem, guarded, check_num_system_accounts,
            check_num_accounts, hlen]
    · simp [systemDispatch, requiredSystem, guarded, check_num_system_accounts,
            check_num_accounts, hlen, systemRecord,
            lookupKey_eq_some account_keys accounts 0 hb (by omega),
            lookupKey_eq_some account_keys accounts 1 hb (by omega),
            lookupKey_eq_some account_keys accounts 2 hb (by omega)]
  | WithdrawNonceAccount lamports =>
    by_cases hlen : accounts.length < 5
    · simp [systemDispatch, requiredSystem, guarded, check_num_system_accounts,
            check_num_accounts, hlen]
    · simp [systemDispatch, requiredSystem, guarded, check_num_system_accounts,
            check_num_accounts, hlen, systemRecord,
            lookupKey_eq_some account_keys accounts 0 hb (by omega),
            lookupKey_eq_some account_keys accounts 1 hb (by omega),
            lookupKey_eq_some account_keys accounts 2 hb (by omega),
            lookupKey_eq_some account_keys accounts 3 hb (by omega),
            lookupKey_eq_some account_keys accounts 4 hb (by omega)]
  | InitializeNonceAccount authority =>
    by_cases hlen : accounts.length < 3
    · simp [systemDispatch, requiredSystem, guarded, check_num_system_accounts,
            check_num_accounts, hlen]
    · simp [systemDispatch, requiredSystem, guarded, check_num_system_accounts,
            check_num_accounts, hlen, systemRecord,
            lookupKey_eq_some account_keys accounts 0 hb (by omega),
            lookupKey_eq_some account_keys accounts 1 hb (by omega),
            lookupKey_eq_some account_keys accounts 2 hb (by omega)]
  | AuthorizeNonceAccount authority =>
    by_cases hlen : accounts.length < 2
    · simp [systemDispatch, requiredSystem, guarded, check_num_system_accounts,
            check_num_accounts, hlen]
    · simp [systemDispatch, requiredSystem, guarded, check_num_system_accounts,
            check_num_accounts, hlen, systemRecord,
            lookupKey_eq_some account_keys accounts 0 hb (by omega),
            lookupKey_eq_some account_keys accounts 1 hb (by omega)]
  | UpgradeNonceAccount =>
    by_cases hlen : accounts.length < 1
    · simp [systemDispatch, requiredSystem, guarded, check_num_system_accounts,
            check_num_accounts, hlen]
    · simp [systemDispatch, requiredSystem, guarded, check_num_system_accounts,
            check_num_accounts, hlen, systemRecord,
            lookupKey_eq_some account_keys accounts 0 hb (by omega)]
  | Allocate space =>
    by_cases hlen : accounts.length < 1
    · simp [systemDispatch, requiredSystem, guarded, check_num_system_accounts,
            check_num_accounts, hlen]
    · simp [systemDispatch, requiredSystem, guarded, check_num_system_accounts,
            check_num_accounts, hlen, systemRecord,
            lookupKey_eq_some account_keys accounts 0 hb (by omega)]
  | AllocateWithSeed base seed space owner =>
    by_cases hlen : accounts.length < 2
    · simp [systemDispatch, requiredSystem, guarded, check_num_system_accounts,
            check_num_accounts, hlen]
    · simp [systemDispatch, requiredSystem, guarded, check_num_system_accounts,
            check_num_accounts, hlen, systemRecord,
            lookupKey_eq_some account_keys accounts 0 hb (by omega)]
  | AssignWithSeed base seed owner =>
    by_cases hlen : accounts.length < 2
    · simp [systemDispatch, requiredSystem, guarded, check_num_system_accounts,
            check_num_accounts, hlen]
    · simp [systemDispatch, requiredSystem, guarded, check_num_system_accounts,
            check_num_accounts, hlen, systemRecord,
            lookupKey_eq_some account_keys accounts 0 hb (by omega)]
  | TransferWithSeed lamports from_seed from_owner =>
    by_cases hlen : accounts.length < 3
    · simp [systemDispatch, requiredSystem, guarded, check_num_system_accounts,
            check_num_accounts, hlen]
    · simp [systemDispatch, requiredSystem, guarded, check_num_system_accounts,
            check_num_accounts, hlen, systemRecord,
            lookupKey_eq_some account_keys accounts 0 hb (by omega),
            lookupKey_eq_some account_keys accounts 1 hb (by omega),
            lookupKey_eq_some account_keys accounts 2 hb (by omega)]

/-- Under the bound check, each arm of the vote dispatch is its arity check
followed by the total projection. -/
theorem voteDispatch_eq (vi : VoteInstruction) (accounts : List Nat)
    (account_keys : List Pubkey)
    (hb : ∀ a ∈ accounts, a < account_keys.length) :
    voteDispatch vi accounts account_keys =
      if accounts.length < requiredVote vi then
        ParseResult.err (ParseInstructionError.InstructionKeyMismatch ParsableProgram.Vote)
      else ParseResult.ok (voteRecord vi accounts account_keys) := by
  cases vi with
  | InitializeAccount vote_init =>
    by_cases hlen : accounts.length < 4
    · simp [voteDispatch, requiredVote, guarded, check_num_vote_accounts,
            check_num_accounts, hlen]
    · simp [voteDispatch, requiredVote, guarded, check_num_vote_accounts,
            check_num_accounts, hlen, voteRecord,
            lookupKey_eq_some account_keys accounts 0 hb (by omega),
            lookupKey_eq_some account_keys accounts 1 hb (by omega),
            lookupKey_eq_some account_keys accounts 2 hb (by omega),
            lookupKey_eq_some account_keys accounts 3 hb (by omega)]
  | Authorize new_authorized authority_type =>
    by_cases hlen : accounts.length < 3
    · simp [voteDispatch, requiredVote, guarded, check_num_vote_accounts,
            check_num_accounts, hlen]
    · simp [voteDispatch, requiredVote, guarded, check_num_vote_accounts,
            check_num_accounts, hlen, voteRecord,
            lookupKey_eq_some account_keys accounts 0 hb (by omega),
            lookupKey_eq_some account_keys accounts 1 hb (by omega),
            lookupKey_eq_some account_keys accounts 2 hb (by omega)]
  | Vote vote =>
    by_cases hlen : accounts.length < 4
    · simp [voteDispatch, requiredVote, guarded, check_num_vote_accounts,
            check_num_accounts, hlen]
    · simp [voteDispatch, requiredVote, guarded, check_num_vote_accounts,
            check_num_accounts, hlen, voteRecord,
            lookupKey_eq_some account_keys accounts 0 hb (by omega),
            lookupKey_eq_some account_keys accounts 1 hb (by omega),
            lookupKey_eq_some account_keys accounts 2 hb (by omega),
            lookupKey_eq_some account_keys accounts 3 hb (by omega)]
  | Withdraw lamports =>
    by_cases hlen : accounts.length < 3
    · simp [voteDispatch, requiredVote, guarded, check_num_vote_accounts,
            check_num_accounts, hlen]
    · simp [voteDispatch, requiredVote, guarded, check_num_vote_accounts,
            check_num_accounts, hlen, voteRecord,
            lookupKey_eq_some account_keys accounts 0 hb (by omega),
            lookupKey_eq_some account_keys accounts 1 hb (by omega),
            lookupKey_eq_some account_keys accounts 2 hb (by omega)]
  | UpdateValidatorIdentity =>
    by_cases hlen : accounts.length < 3
    · simp [voteDispatch, requiredVote, guarded, check_num_vote_accounts,
            check_num_accounts, hlen]
    · simp [voteDispatch, requiredVote, guarded, check_num_vote_accounts,
            check_num_accounts, hlen, voteRecord,
            lookupKey_eq_some account_keys accounts 0 hb (by omega),
            lookupKey_eq_some account_keys accounts 1 hb (by omega),
            lookupKey_eq_some account_keys accounts 2 hb (by omega)]
  | UpdateCommission commission =>
    by_cases hlen : accounts.length < 2
    · simp [voteDispatch, requiredVote, guarded, check_num_vote_accounts,
            check_num_accounts, hlen]
    · simp [voteDispatch, requiredVote, guarded, check_num_vote_accounts,
            check_num_accounts, hlen, voteRecord,
            lookupKey_eq_some account_keys accounts 0 hb (by omega),
            lookupKey_eq_some account_keys accounts 1 hb (by omega)]
  | VoteSwitch vote hash =>
    by_cases hlen : accounts.length < 4
    · simp [voteDispatch, requiredVote, guarded, check_num_vote_accounts,
            check_num_accounts, hlen]
    · simp [voteDispatch, requiredVote, guarded, check_num_vote_accounts,
            check_num_accounts, hlen, voteRecord,
            lookupKey_eq_some account_keys accounts 0 hb (by omega),
            lookupKey_eq_some account_keys accounts 1 hb (by omega),
            lookupKey_eq_some account_keys accounts 2 hb (by omega),
            lookupKey_eq_some account_keys accounts 3 hb (by omega)]
  | AuthorizeChecked authority_type =>
    by_cases hlen : accounts.length < 4
    · simp [voteDispatch, requiredVote, guarded, check_num_vote_accounts,
            check_num_accounts, hlen]
    · simp [voteDispatch, requiredVote, guarded, check_num_vote_accounts,
            check_num_accounts, hlen, voteRecord,
            lookupKey_eq_some account_keys accounts 0 hb (by omega),
            lookupKey_eq_some account_keys accounts 1 hb (by omega),
            lookupKey_eq_some account_keys accounts 2 hb (by omega),
            lookupKey_eq_some account_keys accounts 3 hb (by omega)]

/-- Normal form of parse_system: deserialize, bound check, arity check, then
the total projection. -/
theorem parse_system_eq (instruction : CompiledInstruction) (account_keys : List Pubkey) :
    parse_system instruction account_keys =
      match deserializeSystem instruction.data with
      | none => ParseResult.err (ParseInstructionError.InstructionNotParsable ParsableProgram.System)
      | some si =>
        if maxAccountIndexOk instruction.accounts account_keys then
          if instruction.accounts.length < requiredSystem si then
            ParseResult.err (ParseInstructionError.InstructionKeyMismatch ParsableProgram.System)
          else ParseResult.ok (systemRecord si instruction.accounts account_keys)
        else ParseResult.err (ParseInstructionError.InstructionKeyMismatch ParsableProgram.System) := by
  unfold parse_system
  cases hd : deserializeSystem instruction.data with
  | none => rfl
  | some si =>
    cases hm : listMax? instruction.accounts with
    | none => simp [maxAccountIndexOk, hm]
    | some m =>
      by_cases hlt : m < account_keys.length
      · have hb : ∀ a ∈ instruction.accounts, a < account_keys.length :=
          fun a ha => lt_of_le_of_lt (listMax?_le hm a ha) hlt
        simp [maxAccountIndexOk, hm, hlt, systemDispatch_eq si _ _ hb]
      · simp [maxAccountIndexOk, hm, hlt]

/-- Normal form of parse_vote: deserialize, bound check, arity check, then the
total projection. -/
theorem parse_vote_eq (instruction : CompiledInstruction) (account_keys : List Pubkey) :
    parse_vote instruction account_keys =
      match deserializeVote instruction.data with
      | none => ParseResult.err (ParseInstructionError.InstructionNotParsable ParsableProgram.Vote)
      | some vi =>
        if maxAccountIndexOk instruction.accounts account_keys then
          if instruction.accounts.length < requiredVote vi then
            ParseResult.err (ParseInstructionError.InstructionKeyMismatch ParsableProgram.Vote)
          else ParseResult.ok (voteRecord vi instruction.accounts account_keys)
        else ParseResult.err (ParseInstructionError.InstructionKeyMismatch ParsableProgram.Vote) := by
  unfold parse_vote
  cases hd : deserializeVote instruction.data with
  | none => rfl
  | some vi =>
    cases hm : listMax? instruction.accounts with
    | none => simp [maxAccountIndexOk, hm]
    | some m =>
      by_cases hlt : m < account_keys.length
      · have hb : ∀ a ∈ instruction.accounts, a < account_keys.length :=
          fun a ha => lt_of_le_of_lt (listMax?_le hm a ha) hlt
        simp [maxAccountIndexOk, hm, hlt, voteDispatch_eq vi _ _ hb]
      · simp [maxAccountIndexOk, hm, hlt]

/-- The projected system record reads the accounts list only at positions
below the required count of the matched variant. -/
theorem systemRecord_ext (si : SystemInstruction) (account_keys : List Pubkey)
    (a1 a2 : List Nat)
    (h : ∀ p, p < requiredSystem si →
      keyStrAt account_keys a1 p = keyStrAt account_keys a2 p) :
    systemRecord si a1 account_keys = systemRecord si a2 account_keys := by
  cases si with
  | CreateAccount lamports space owner =>
    simp only [systemRecord]
    rw [h 0 (by simp [requiredSystem]), h 1 (by simp [requiredSystem])]
  | Assign owner =>
    simp only [systemRecord]
    rw [h 0 (by simp [requiredSystem])]
  | Transfer lamports =>
    simp only [systemRecord]
    rw [h 0 (by simp [requiredSystem]), h 1 (by simp [requiredSystem])]
  | CreateAccountWithSeed base seed lamports space owner =>
    simp only [systemRecord]
    rw [h 0 (by simp [requiredSystem]), h 1 (by simp [requiredSystem])]
  | AdvanceNonceAccount =>
    simp only [systemRecord]
    rw [h 0 (by simp [requiredSystem]), h 1 (by simp [requiredSystem]), h 2 (by simp [requiredSystem])]
  | WithdrawNonceAccount lamports =>
    simp only [systemRecord]
    rw [h 0 (by simp [requiredSystem]), h 1 (by simp [requiredSystem]), h 2 (by simp [requiredSystem]), h 3 (by simp [requiredSystem]), h 4 (by simp [requiredSystem])]
  | InitializeNonceAccount authority =>
    simp only [systemRecord]
    rw [h 0 (by simp [requiredSystem]), h 1 (by simp [requiredSystem]), h 2 (by simp [requiredSystem])]
  | AuthorizeNonceAccount authority =>
    simp only [systemRecord]
    rw [h 0 (by simp [requiredSystem]), h 1 (by simp [requiredSystem])]
  | UpgradeNonceAccount =>
    simp only [systemRecord]
    rw [h 0 (by simp [requiredSystem])]
  | Allocate space =>
    simp only [systemRecord]
    rw [h 0 (by simp [requiredSystem])]
  | AllocateWithSeed base seed space owner =>
    simp only [systemRecord]
    rw [h 0 (by simp [requiredSystem])]
  | AssignWithSeed base seed owner =>
    simp only [systemRecord]
    rw [h 0 (by simp [requiredSystem])]
  | TransferWithSeed lamports from_seed from_owner =>
    simp only [systemRecord]
    rw [h 0 (by simp [requiredSystem]), h 1 (by simp [requiredSystem]), h 2 (by simp [requiredSystem])]

/-- The projected vote record reads the accounts list only at positions below
the required count of the matched variant. -/
theorem voteRecord_ext (vi : VoteInstruction) (account_keys : List Pubkey)
    (a1 a2 : List Nat)
    (h : ∀ p, p < requiredVote vi →
      keyStrAt account_keys a1 p = keyStrAt account_keys a2 p) :
    voteRecord vi a1 account_keys = voteRecord vi a2 account_keys := by
  cases vi with
  | InitializeAccount vote_init =>
    simp only [voteRecord]
    rw [h 0 (by simp [requiredVote]), h 1 (by simp [requiredVote]), h 2 (by simp [requiredVote]), h 3 (by simp [requiredVote])]
  | Authorize new_authorized authority_type =>
    simp only [voteRecord]
    rw [h 0 (by simp [requiredVote]), h 1 (by simp [requiredVote]), h 2 (by simp [requiredVote])]
  | Vote vote =>
    simp only [voteRecord]
    rw [h 0 (by simp [requiredVote]), h 1 (by simp [requiredVote]), h 2 (by simp [requiredVote]), h 3 (by simp [requiredVote])]
  | Withdraw lamports =>
    simp only [voteRecord]
    rw [h 0 (by simp [requiredVote]), h 1 (by simp [requiredVote]), h 2 (by simp [requiredVote])]
  | UpdateValidatorIdentity =>
    simp only [voteRecord]
    rw [h 0 (by simp [requiredVote]), h 1 (by simp [requiredVote]), h 2 (by simp [requiredVote])]
  | UpdateCommission commission =>
    simp only [voteRecord]
    rw [h 0 (by simp [requiredVote]), h 1 (by simp [requiredVote])]
  | VoteSwitch vote hash =>
    simp only [voteRecord]
    rw [h 0 (by simp [requiredVote]), h 1 (by simp [requiredVote]), h 2 (by simp [requiredVote]), h 3 (by simp [requiredVote])]
  | AuthorizeChecked authority_type =>
    simp only [voteRecord]
    rw [h 0 (by simp [requiredVote]), h 1 (by simp [requiredVote]), h 2 (by simp [requiredVote]), h 3 (by simp [requiredVote])]

/-- Appending extra account indices does not change the projected system
record, provided the original list already covers the required positions. -/
theorem systemRecord_append (si : SystemInstruction) (account_keys : List Pubkey)
    (l e : List Nat) (hlen : requiredSystem si ≤ l.length) :
    systemRecord si (l ++ e) account_keys = systemRecord si l account_keys :=
  systemRecord_ext si account_keys (l ++ e) l
    (fun p hp => keyStrAt_append account_keys l e p (by omega))

/-- Appending extra account indices does not change the projected vote record,
provided the original list already covers the required positions. -/
theorem voteRecord_append (vi : VoteInstruction) (account_keys : List Pubkey)
    (l e : List Nat) (hlen : requiredVote vi ≤ l.length) :
    voteRecord vi (l ++ e) account_keys = voteRecord vi l account_keys :=
  voteRecord_ext vi account_keys (l ++ e) l
    (fun p hp => keyStrAt_append account_keys l e p (by omega))

/-- A 32-byte key of all zero bytes; renders as a string of 32 ones. -/
def pkA : Pubkey := ⟨List.replicate 32 0⟩

/-- A 32-byte key whose value is one. -/
def pkB : Pubkey := ⟨List.replicate 31 0 ++ [1]⟩

/-- Payload bytes of a system transfer of 55 lamports: tag 2, then 55 as a
64-bit little-endian integer. -/
def transferData55 : List Nat := [2, 0, 0, 0, 55, 0, 0, 0, 0, 0, 0, 0]

/-- Payload bytes of an allocate-with-seed instruction: tag 10, a 32-byte
base, an empty seed, space 128, and a 32-byte owner. -/
def awsData : List Nat :=
  [10, 0, 0, 0] ++ List.replicate 32 3 ++ List.replicate 8 0 ++
    [128, 0, 0, 0, 0, 0, 0, 0] ++ List.replicate 32 4

/-- The 32-byte hash of all one bytes used by the vote scenario. -/
def voteHashH : SolHash := ⟨List.replicate 32 1⟩

/-- Payload bytes of a vote instruction with slots 1, 2, 4, the hash of all
one bytes, and timestamp 1234567890: tag 2, a counted slot list, 32 hash
bytes, and a present optional timestamp. -/
def voteData : List Nat :=
  [2, 0, 0, 0] ++ [3, 0, 0, 0, 0, 0, 0, 0] ++
    [1, 0, 0, 0, 0, 0, 0, 0] ++ [2, 0, 0, 0, 0, 0, 0, 0] ++ [4, 0, 0, 0, 0, 0, 0, 0] ++
    List.replicate 32 1 ++ [1] ++ [210, 2, 150, 73, 0, 0, 0, 0]

/-- C1 (amended): parse_system and parse_vote never perform an out-of-range
index into account_keys and never panic, for every instruction and every key
list, in particular for every truncation of the key list; re-decoding against
a truncated list therefore yields a typed result, never an index failure. -/
theorem decode_never_index_out_of_range :
    ∀ (instruction : CompiledInstruction) (account_keys : List Pubkey),
      parse_system instruction account_keys ≠ ParseResult.oob ∧
      parse_vote instruction account_keys ≠ ParseResult.oob ∧
      ∀ k, parse_system instruction (account_keys.take k) ≠ ParseResult.oob ∧
        parse_vote instruction (account_keys.take k) ≠ ParseResult.oob := by
  have hs : ∀ (i : CompiledInstruction) (keys : List Pubkey),
      parse_system i keys ≠ ParseResult.oob := by
    intro i keys
    rw [parse_system_eq]
    cases deserializeSystem i.data with
    | none => simp
    | some si =>
      by_cases h1 : maxAccountIndexOk i.accounts keys = true <;>
        by_cases h2 : i.accounts.length < requiredSystem si <;>
          simp [h1, h2]
  have hv : ∀ (i : CompiledInstruction) (keys : List Pubkey),
      parse_vote i keys ≠ ParseResult.oob := by
    intro i keys
    rw [parse_vote_eq]
    cases deserializeVote i.data with
    | none => simp
    | some vi =>
      by_cases h1 : maxAccountIndexOk i.accounts keys = true <;>
        by_cases h2 : i.accounts.length < requiredVote vi <;>
          simp [h1, h2]
  intro i keys
  exact ⟨hs i keys, hv i keys, fun k => ⟨hs i _, hv i _⟩⟩

/-- C1 witness: a concrete decode against an empty key list is not an
out-of-range failure. -/
theorem decode_never_index_out_of_range_witness :
    parse_system ⟨0, [0], transferData55⟩ [] ≠ ParseResult.oob :=
  (decode_never_index_out_of_range ⟨0, [0], transferData55⟩ []).1

/-- C1 counterexample: a transfer instruction with duplicate account indices
zero and zero decodes successfully against two keys; truncating the key list
to length one, below the required count two of the matched variant, still
decodes successfully instead of failing with key mismatch. -/
theorem truncated_keys_can_still_succeed :
    (parse_system ⟨0, [0, 0], transferData55⟩ [pkA, pkB]).isOk = true ∧
    requiredSystem (SystemInstruction.Transfer 55) = 2 ∧
    List.take 1 [pkA, pkB] = [pkA] ∧
    (parse_system ⟨0, [0, 0], transferData55⟩ [pkA]).isOk = true ∧
    parse_system ⟨0, [0, 0], transferData55⟩ [pkA] ≠
      ParseResult.err (ParseInstructionError.InstructionKeyMismatch ParsableProgram.System) :=
  ⟨rfl, rfl, rfl, rfl, by decide⟩

/-- C2 (amended): an instruction referencing zero accounts fails the
maximum-account-index bound check itself whenever its payload deserializes,
and the decode returns key mismatch at that step without reaching the arity
check of the matched variant. -/
theorem empty_accounts_key_mismatch :
    (∀ (i : CompiledInstruction) (account_keys : List Pubkey) (si : SystemInstruction),
      i.accounts = [] → deserializeSystem i.data = some si →
      parse_system i account_keys =
        ParseResult.err (ParseInstructionError.InstructionKeyMismatch ParsableProgram.System)) ∧
    (∀ (i : CompiledInstruction) (account_keys : List Pubkey) (vi : VoteInstruction),
      i.accounts = [] → deserializeVote i.data = some vi →
      parse_vote i account_keys =
        ParseResult.err (ParseInstructionError.InstructionKeyMismatch ParsableProgram.Vote)) := by
  constructor
  · intro i keys si hacc hd
    rw [parse_system_eq]
    simp [hd, hacc, maxAccountIndexOk, listMax?]
  · intro i keys vi hacc hd
    rw [parse_vote_eq]
    simp [hd, hacc, maxAccountIndexOk, listMax?]

/-- C2 witness: a vote payload with an empty accounts list is rejected with
key mismatch. -/
theorem empty_accounts_key_mismatch_witness :
    parse_vote ⟨0, [], voteData⟩ [pkA] =
      ParseResult.err (ParseInstructionError.InstructionKeyMismatch ParsableProgram.Vote) :=
  empty_accounts_key_mismatch.2 ⟨0, [], voteData⟩ [pkA]
    (VoteInstruction.Vote ⟨[1, 2, 4], voteHashH, some 1234567890⟩) rfl rfl

/-- C2 counterexample: for an empty accounts list with a well-formed payload
the bound check is not vacuously satisfied: it evaluates to false and the
decode fails there with key mismatch instead of proceeding to the arity
check. -/
theorem empty_accounts_bound_check_fails :
    deserializeSystem transferData55 = some (SystemInstruction.Transfer 55) ∧
    maxAccountIndexOk [] [pkA, pkB] = false ∧
    parse_system ⟨0, [], transferData55⟩ [pkA, pkB] =
      ParseResult.err (ParseInstructionError.InstructionKeyMismatch ParsableProgram.System) :=
  ⟨rfl, rfl, rfl⟩

/-- C3: each decoder returns the not-parsable error of its own program exactly
when the payload fails to deserialize against the program schema, regardless
of the accounts list and the key table, since deserialization runs first. -/
theorem not_parsable_iff_deserialize_fails :
    ∀ (i : CompiledInstruction) (account_keys : List Pubkey),
      (parse_system i account_keys =
          ParseResult.err (ParseInstructionError.InstructionNotParsable ParsableProgram.System) ↔
        deserializeSystem i.data = none) ∧
      (parse_vote i account_keys =
          ParseResult.err (ParseInstructionError.InstructionNotParsable ParsableProgram.Vote) ↔
        deserializeVote i.data = none) := by
  intro i keys
  constructor
  · rw [parse_system_eq]
    cases deserializeSystem i.data with
    | none => simp
    | some si =>
      by_cases h1 : maxAccountIndexOk i.accounts keys = true <;>
        by_cases h2 : i.accounts.length < requiredSystem si <;>
          simp [h1, h2]
  · rw [parse_vote_eq]
    cases deserializeVote i.data with
    | none => simp
    | some vi =>
      by_cases h1 : maxAccountIndexOk i.accounts keys = true <;>
        by_cases h2 : i.accounts.length < requiredVote vi <;>
          simp [h1, h2]

/-- C3 witness: a one-byte payload cannot deserialize and yields the
not-parsable error of the system program. -/
theorem not_parsable_iff_deserialize_fails_witness :
    parse_system ⟨0, [0], [255]⟩ [pkA] =
      ParseResult.err (ParseInstructionError.InstructionNotParsable ParsableProgram.System) :=
  ((not_parsable_iff_deserialize_fails ⟨0, [0], [255]⟩ [pkA]).1).mpr rfl

/-- C4 (amended): with a deserializable payload and in-bounds account indices,
the decode fails with key mismatch exactly on arity shortfall and succeeds
otherwise, where the required counts are the constants the code checks; these
match the spec table except that allocateWithSeed and assignWithSeed require
two accounts, not one. -/
theorem arity_check_matches_code_required_counts :
    (∀ (i : CompiledInstruction) (account_keys : List Pubkey) (si : SystemInstruction),
      deserializeSystem i.data = some si →
      maxAccountIndexOk i.accounts account_keys = true →
      (i.accounts.length < requiredSystem si →
        parse_system i account_keys =
          ParseResult.err (ParseInstructionError.InstructionKeyMismatch ParsableProgram.System)) ∧
      (requiredSystem si ≤ i.accounts.length →
        parse_system i account_keys =
          ParseResult.ok (systemRecord si i.accounts account_keys))) ∧
    (∀ (i : CompiledInstruction) (account_keys : List Pubkey) (vi : VoteInstruction),
      deserializeVote i.data = some vi →
      maxAccountIndexOk i.accounts account_keys = true →
      (i.accounts.length < requiredVote vi →
        parse_vote i account_keys =
          ParseResult.err (ParseInstructionError.InstructionKeyMismatch ParsableProgram.Vote)) ∧
      (requiredVote vi ≤ i.accounts.length →
        parse_vote i account_keys =
          ParseResult.ok (voteRecord vi i.accounts account_keys))) := by
  constructor
  · intro i keys si hd hmax
    rw [parse_system_eq]
    constructor
    · intro hlt
      simp [hd, hmax, hlt]
    · intro hge
      simp [hd, hmax, Nat.not_lt.mpr hge]
  · intro i keys vi hd hmax
    rw [parse_vote_eq]
    constructor
    · intro hlt
      simp [hd, hmax, hlt]
    · intro hge
      simp [hd, hmax, Nat.not_lt.mpr hge]

/-- C4 witness: a transfer with a single supplied account index and in-bounds
indices fails with key mismatch, since transfer requires two. -/
theorem arity_check_matches_code_required_counts_witness :
    parse_system ⟨0, [0], transferData55⟩ [pkA] =
      ParseResult.err (ParseInstructionError.InstructionKeyMismatch ParsableProgram.System) :=
  (arity_check_matches_code_required_counts.1 ⟨0, [0], transferData55⟩ [pkA]
    (SystemInstruction.Transfer 55) rfl rfl).1 (by decide)

/-- C4 counterexample: an allocateWithSeed instruction supplying one in-bounds
account, which meets the one-account requirement the spec table lists for that
variant, is nevertheless rejected with key mismatch because the code checks
for two accounts. -/
theorem allocate_with_seed_requires_two_accounts :
    deserializeSystem awsData =
      some (SystemInstruction.AllocateWithSeed ⟨List.replicate 32 3⟩ "" 128
        ⟨List.replicate 32 4⟩) ∧
    maxAccountIndexOk [0] [pkA] = true ∧
    requiredSystemSpecTable
      (SystemInstruction.AllocateWithSeed ⟨List.replicate 32 3⟩ "" 128
        ⟨List.replicate 32 4⟩) = 1 ∧
    parse_system ⟨0, [0], awsData⟩ [pkA] =
      ParseResult.err (ParseInstructionError.InstructionKeyMismatch ParsableProgram.System) :=
  ⟨rfl, rfl, rfl, rfl⟩

/-- C5 (amended): appending additional in-bounds account indices beyond the
ones a successful decode used does not change the decoded record; only the
first required positions of the accounts list affect the output. -/
theorem append_in_bounds_accounts_preserves_record :
    (∀ (pidx : Nat) (accounts data : List Nat) (account_keys : List Pubkey)
      (extra : List Nat) (r : ParsedInstructionEnum),
      parse_system ⟨pidx, accounts, data⟩ account_keys = ParseResult.ok r →
      (∀ a ∈ extra, a < account_keys.length) →
      parse_system ⟨pidx, accounts ++ extra, data⟩ account_keys = ParseResult.ok r) ∧
    (∀ (pidx : Nat) (accounts data : List Nat) (account_keys : List Pubkey)
      (extra : List Nat) (r : ParsedInstructionEnum),
      parse_vote ⟨pidx, accounts, data⟩ account_keys = ParseResult.ok r →
      (∀ a ∈ extra, a < account_keys.length) →
      parse_vote ⟨pidx, accounts ++ extra, data⟩ account_keys = ParseResult.ok r) := by
  constructor
  · intro pidx accounts data keys extra r hok hextra
    simp only [parse_system_eq] at hok ⊢
    cases hd : deserializeSystem data with
    | none =>
      simp only [hd] at hok
      cases hok
    | some si =>
      simp only [hd] at hok ⊢
      split_ifs at hok with hmax hlen
      obtain ⟨hne, hb⟩ := (maxAccountIndexOk_iff accounts keys).mp hmax
      have hmax2 : maxAccountIndexOk (accounts ++ extra) keys = true :=
        (maxAccountIndexOk_iff _ _).mpr
          ⟨fun hc => hne (List.append_eq_nil.mp hc).1,
           fun a ha => by
             rcases List.mem_append.mp ha with h1 | h2
             · exact hb a h1
             · exact hextra a h2⟩
      have hlen2 : ¬ accounts.length + extra.length < requiredSystem si := by omega
      have happ : systemRecord si (accounts ++ extra) keys = systemRecord si accounts keys :=
        systemRecord_append si keys accounts extra (by omega)
      simp [hmax2, hlen2, happ, hok]
  · intro pidx accounts data keys extra r hok hextra
    simp only [parse_vote_eq] at hok ⊢
    cases hd : deserializeVote data with
    | none =>
      simp only [hd] at hok
      cases hok
    | some vi =>
      simp only [hd] at hok ⊢
      split_ifs at hok with hmax hlen
      obtain ⟨hne, hb⟩ := (maxAccountIndexOk_iff accounts keys).mp hmax
      have hmax2 : maxAccountIndexOk (accounts ++ extra) keys = true :=
        (maxAccountIndexOk_iff _ _).mpr
          ⟨fun hc => hne (List.append_eq_nil.mp hc).1,
           fun a ha => by
             rcases List.mem_append.mp ha with h1 | h2
             · exact hb a h1
             · exact hextra a h2⟩
      have hlen2 : ¬ accounts.length + extra.length < requiredVote vi := by omega
      have happ : voteRecord vi (accounts ++ extra) keys = voteRecord vi accounts keys :=
        voteRecord_append vi keys accounts extra (by omega)
      simp [hmax2, hlen2, happ, hok]

/-- The record produced for the transfer scenario with the two sample keys. -/
def transferRecAB : ParsedInstructionEnum :=
  { instruction_type := "transfer",
    info := [("source", jstr pkA.toString), ("destination", jstr pkB.toString),
             ("lamports", jnat 55)] }

/-- C5 witness: appending the in-bounds index zero to a successful transfer
leaves the decoded record unchanged. -/
theorem append_in_bounds_accounts_preserves_record_witness :
    parse_system ⟨0, [0, 1] ++ [0], transferData55⟩ [pkA, pkB] =
      ParseResult.ok transferRecAB :=
  append_in_bounds_accounts_preserves_record.1 0 [0, 1] transferData55 [pkA, pkB]
    [0] transferRecAB rfl (by decide)

/-- C5 counterexample: appending the out-of-bounds index five to a transfer
that decodes successfully changes the result from a record to the key
mismatch error, because the bound check inspects the whole accounts list. -/
theorem append_out_of_bounds_account_changes_result :
    (parse_system ⟨0, [0, 1], transferData55⟩ [pkA, pkB]).isOk = true ∧
    parse_system ⟨0, [0, 1] ++ [5], transferData55⟩ [pkA, pkB] =
      ParseResult.err (ParseInstructionError.InstructionKeyMismatch ParsableProgram.System) :=
  ⟨rfl, rfl⟩

/-- C6: a transfer of 55 lamports with accounts zero and one decodes against
two keys to the record mapping source, destination and lamports exactly, and
fails with key mismatch against a single key. -/
theorem transfer_concrete_scenario :
    ∀ (A B : Pubkey),
      parse_system ⟨0, [0, 1], transferData55⟩ [A, B] =
        ParseResult.ok
          { instruction_type := "transfer",
            info := [("source", jstr (Pubkey.toString A)),
                     ("destination", jstr (Pubkey.toString B)),
                     ("lamports", jnat 55)] } ∧
      parse_system ⟨0, [0, 1], transferData55⟩ [A] =
        ParseResult.err (ParseInstructionError.InstructionKeyMismatch ParsableProgram.System) :=
  fun _ _ => ⟨rfl, rfl⟩

/-- C6 witness: the transfer scenario at the two sample keys. -/
theorem transfer_concrete_scenario_witness :
    parse_system ⟨0, [0, 1], transferData55⟩ [pkA, pkB] = ParseResult.ok transferRecAB :=
  (transfer_concrete_scenario pkA pkB).1

/-- C7: a vote with slots one, two, four, the sample hash and timestamp
1234567890 decodes against four keys to a record whose info nests the vote
fields inside a vote sub-mapping, and fails against three keys. -/
theorem vote_concrete_scenario :
    ∀ (K0 K1 K2 K3 : Pubkey),
      parse_vote ⟨0, [0, 1, 2, 3], voteData⟩ [K0, K1, K2, K3] =
        ParseResult.ok
          { instruction_type := "vote",
            info := [("voteAccount", jstr (Pubkey.toString K0)),
                     ("slotHashesSysvar", jstr (Pubkey.toString K1)),
                     ("clockSysvar", jstr (Pubkey.toString K2)),
                     ("voteAuthority", jstr (Pubkey.toString K3)),
                     ("vote", JValue.obj
                        [("slots", JLeaf.intArr [1, 2, 4]),
                         ("hash", JLeaf.s voteHashH.toString),
                         ("timestamp", JLeaf.i 1234567890)])] } ∧
      parse_vote ⟨0, [0, 1, 2, 3], voteData⟩ [K0, K1, K2] =
        ParseResult.err (ParseInstructionError.InstructionKeyMismatch ParsableProgram.Vote) :=
  fun _ _ _ _ => ⟨rfl, rfl⟩

/-- C7 witness: the vote scenario at four sample keys decodes to a record. -/
theorem vote_concrete_scenario_witness :
    (parse_vote ⟨0, [0, 1, 2, 3], voteData⟩ [pkA, pkB, pkA, pkB]).isOk = true := by
  rw [(vote_concrete_scenario pkA pkB pkA pkB).1]
  rfl

/-- C8: the decode result depends only on the declared inputs, the accounts
list and the payload of the instruction together with the key table; two
calls agreeing on those produce identical results, with no hidden state. -/
theorem decode_deterministic :
    ∀ (i1 i2 : CompiledInstruction) (account_keys : List Pubkey),
      i1.accounts = i2.accounts → i1.data = i2.data →
      parse_system i1 account_keys = parse_system i2 account_keys ∧
      parse_vote i1 account_keys = parse_vote i2 account_keys := by
  intro i1 i2 keys hacc hdata
  cases i1 with
  | mk p1 a1 d1 =>
    cases i2 with
    | mk p2 a2 d2 =>
      have h1 : a1 = a2 := hacc
      have h2 : d1 = d2 := hdata
      subst h1
      subst h2
      exact ⟨rfl, rfl⟩

/-- C8 witness: two instructions differing only in the program selector index
decode identically. -/
theorem decode_deterministic_witness :
    parse_system ⟨0, [0, 1], transferData55⟩ [pkA, pkB] =
      parse_system ⟨7, [0, 1], transferData55⟩ [pkA, pkB] :=
  (decode_deterministic ⟨0, [0, 1], transferData55⟩ ⟨7, [0, 1], transferData55⟩
    [pkA, pkB] rfl rfl).1

/-- C9: the bound check inspects the maximum over the entire accounts list:
whenever any referenced index, used or not by the matched variant, reaches the
key-table length, the decode fails with key mismatch. -/
theorem bound_check_covers_whole_accounts_list :
    (∀ (i : CompiledInstruction) (account_keys : List Pubkey) (si : SystemInstruction)
      (a : Nat),
      deserializeSystem i.data = some si → a ∈ i.accounts →
      account_keys.length ≤ a →
      parse_system i account_keys =
        ParseResult.err (ParseInstructionError.InstructionKeyMismatch ParsableProgram.System)) ∧
    (∀ (i : CompiledInstruction) (account_keys : List Pubkey) (vi : VoteInstruction)
      (a : Nat),
      deserializeVote i.data = some vi → a ∈ i.accounts →
      account_keys.length ≤ a →
      parse_vote i account_keys =
        ParseResult.err (ParseInstructionError.InstructionKeyMismatch ParsableProgram.Vote)) := by
  constructor
  · intro i keys si a hd hmem hge
    have hmax : maxAccountIndexOk i.accounts keys = false := by
      cases hmaxb : maxAccountIndexOk i.accounts keys with
      | false => rfl
      | true =>
        obtain ⟨-, hb⟩ := (maxAccountIndexOk_iff _ _).mp hmaxb
        have := hb a hmem
        omega
    rw [parse_system_eq]
    simp [hd, hmax]
  · intro i keys vi a hd hmem hge
    have hmax : maxAccountIndexOk i.accounts keys = false := by
      cases hmaxb : maxAccountIndexOk i.accounts keys with
      | false => rfl
      | true =>
        obtain ⟨-, hb⟩ := (maxAccountIndexOk_iff _ _).mp hmaxb
        have := hb a hmem
        omega
    rw [parse_vote_eq]
    simp [hd, hmax]

/-- C9 witness: a transfer whose trailing unused index five exceeds the
two-key table is rejected with key mismatch. -/
theorem bound_check_covers_whole_accounts_list_witness :
    parse_system ⟨0, [0, 1, 5], transferData55⟩ [pkA, pkB] =
      ParseResult.err (ParseInstructionError.InstructionKeyMismatch ParsableProgram.System) :=
  bound_check_covers_whole_accounts_list.1 ⟨0, [0, 1, 5], transferData55⟩ [pkA, pkB]
    (SystemInstruction.Transfer 55) 5 rfl (by decide) (by decide)

/-- C10: duplicate account indices are accepted and resolved independently per
position: any deserializable instruction with in-bounds indices meeting the
arity requirement decodes to a record, and in particular a transfer with
accounts zero and zero against one key renders that key as both source and
destination. -/
theorem duplicate_account_indices_accepted :
    (∀ (i : CompiledInstruction) (account_keys : List Pubkey) (si : SystemInstruction),
      deserializeSystem i.data = some si →
      maxAccountIndexOk i.accounts account_keys = true →
      requiredSystem si ≤ i.accounts.length →
      (parse_system i account_keys).isOk = true) ∧
    (∀ (K : Pubkey),
      parse_system ⟨0, [0, 0], transferData55⟩ [K] =
        ParseResult.ok
          { instruction_type := "transfer",
            info := [("source", jstr (Pubkey.toString K)),
                     ("destination", jstr (Pubkey.toString K)),
                     ("lamports", jnat 55)] }) := by
  constructor
  · intro i keys si hd hmax hlen
    rw [parse_system_eq]
    simp [hd, hmax, Nat.not_lt.mpr hlen, ParseResult.isOk]
  · intro K
    rfl

/-- C10 witness: the duplicate-index transfer against a single key decodes. -/
theorem duplicate_account_indices_accepted_witness :
    (parse_system ⟨0, [0, 0], transferData55⟩ [pkA]).isOk = true :=
  duplicate_account_indices_accepted.1 ⟨0, [0, 0], transferData55⟩ [pkA]
    (SystemInstruction.Transfer 55) rfl rfl (by decide)

end SolanaTxStatus
